import Mathlib

/-!
Verification development for the `geojson_validator` / `geojsonfix` repository.

The core under scrutiny is `geojson_validator/schema_validation.py`: the class
`GeoJsonLint`, a recursive, type-dispatching structural validator for parsed
GeoJSON documents.  We embed the Python code shallowly:

* Parsed JSON/Python values become the inductive type `Json`
  (dict / list / str / int / bool / None).  JSON numbers are modelled as
  integers; every document appearing in the claims is integer-valued, and the
  validator only ever asks kind questions (`isinstance`) of numbers.
* The mutable `GeoJsonLint` instance becomes the explicit state `LintState`
  threaded through every validator (fields `check_crs`, `feature_idx`,
  `errors`).  The Python `dict` `self.errors` is insertion-ordered, so it is
  modelled as an association list ordered by first insertion.
* The line map produced by the external library call
  `calculate(json.dumps(...))` is an external collaborator; it is modelled as
  an abstract lookup `LineMap : String -> Option Nat` (path to zero-indexed
  line), passed to `lint` as a parameter.  `_get_line_number` is
  `getLineNumber` below.
* Python truthiness (`if not obj_type`, `if geom:`) is `isTruthy`;
  `isinstance(x, (int, float))` is `isPyNumber` (true on `bool`, since Python
  `bool` is a subclass of `int`); `str.split(sep)[0]` is `pySplitHead`.
-/

/-- A parsed JSON / Python value, as handled by `GeoJsonLint`.  Numbers are
modelled as integers (see the module docstring). -/
inductive Json where
  | null
  | bool (b : Bool)
  | num (n : Int)
  | str (s : String)
  | arr (elems : List Json)
  | obj (members : List (String × Json))

/-- Association-list lookup, modelling `dict.get` / `dict[...]` on the members
of a JSON object (Python dict keys are unique). -/
def getM : List (String × Json) → String → Option Json
  | [], _ => none
  | (k, v) :: rest, key => if k == key then some v else getM rest key

/-- `obj.get(key)` for an arbitrary value: `none` when the value is not a
dict (only ever used on dicts in the source). -/
def jget : Json → String → Option Json
  | Json.obj kvs, key => getM kvs key
  | _, _ => none

/-- `key in obj` for a dict value. -/
def jhasKey (g : Json) (key : String) : Bool :=
  (jget g key).isSome

/-- `isinstance(v, list)`. -/
def isArr : Json → Bool
  | Json.arr _ => true
  | _ => false

/-- `isinstance(v, dict)`. -/
def isObj : Json → Bool
  | Json.obj _ => true
  | _ => false

/-- `v is None`. -/
def isNull : Json → Bool
  | Json.null => true
  | _ => false

/-- Python truthiness of a JSON value (`bool(v)`): `None`, `False`, `0`, empty
string, empty list and empty dict are falsy. -/
def isTruthy : Json → Bool
  | Json.null => false
  | Json.bool b => b
  | Json.num n => n != 0
  | Json.str s => s != ""
  | Json.arr xs => !xs.isEmpty
  | Json.obj kvs => !kvs.isEmpty

/-- Truthiness of the result of `dict.get` (absent member → `None` → falsy). -/
def pyTruthyOpt : Option Json → Bool
  | none => false
  | some v => isTruthy v

/-- `isinstance(v, (int, float))`.  Python `bool` is a subclass of `int`, so
boolean values satisfy this check. -/
def isPyNumber : Json → Bool
  | Json.bool _ => true
  | Json.num _ => true
  | _ => false

/-- `isinstance(v, (str, int))` (used for the Feature `id` member); again
`bool` is a subclass of `int`. -/
def isPyStrOrInt : Json → Bool
  | Json.str _ => true
  | Json.num _ => true
  | Json.bool _ => true
  | _ => false

/-- `v == s` where `s` is a Python string: only string values compare equal to
a string. -/
def pyEqStr (v : Json) (a : String) : Bool :=
  match v with
  | Json.str s => s == a
  | _ => false

/-- `obj_type == s` where `obj_type` may be `None` (absent member). -/
def pyEqStrOpt (t : Option Json) (a : String) : Bool :=
  match t with
  | some v => pyEqStr v a
  | none => false

/-- `v in l` for a Python list of strings. -/
def pyInList (v : Json) (l : List String) : Bool :=
  l.any (pyEqStr v)

/-- `t in l` where `t` may be `None`. -/
def pyInListOpt (t : Option Json) (l : List String) : Bool :=
  match t with
  | some v => pyInList v l
  | none => false

/-- `type(v).__name__` (with numbers restricted to `int`). -/
def pyTypeName : Json → String
  | Json.null => "NoneType"
  | Json.bool _ => "bool"
  | Json.num _ => "int"
  | Json.str _ => "str"
  | Json.arr _ => "list"
  | Json.obj _ => "dict"

mutual
/-- Python `repr` of a value (strings shown in single quotes). -/
def pyRepr : Json → String
  | Json.null => "None"
  | Json.bool true => "True"
  | Json.bool false => "False"
  | Json.num n => toString n
  | Json.str s => "\x27" ++ s ++ "\x27"
  | Json.arr xs => "[" ++ pyReprItems xs ++ "]"
  | Json.obj kvs => "\x7b" ++ pyReprMembers kvs ++ "\x7d"

/-- Comma-separated `repr`s of list elements. -/
def pyReprItems : List Json → String
  | [] => ""
  | [x] => pyRepr x
  | x :: y :: rest => pyRepr x ++ ", " ++ pyReprItems (y :: rest)

/-- Comma-separated `repr`s of dict members. -/
def pyReprMembers : List (String × Json) → String
  | [] => ""
  | [(k, v)] => "\x27" ++ k ++ "\x27: " ++ pyRepr v
  | (k, v) :: m :: rest =>
      "\x27" ++ k ++ "\x27: " ++ pyRepr v ++ ", " ++ pyReprMembers (m :: rest)
end

/-- Python `str` of a value, as interpolated by an f-string: identical to
`repr` except that a top-level string is rendered without quotes. -/
def pyStr : Json → String
  | Json.str s => s
  | v => pyRepr v

/-- Python `repr` of a list of strings, e.g. `['FeatureCollection', 'Feature']`
(this is how `{allowed_types}` renders inside the invalid-type message). -/
def reprStrList (l : List String) : String :=
  "[" ++ String.intercalate ", " (l.map (fun a => "\x27" ++ a ++ "\x27")) ++ "]"

/-- Does `sep` occur at the head of `s`? -/
def leadsWith : List Char → List Char → Bool
  | [], _ => true
  | _ :: _, [] => false
  | a :: as, b :: bs => a == b && leadsWith as bs

/-- Characters of `s` before the first occurrence of `sep` (all of `s` when
`sep` does not occur). -/
def splitHeadChars (sep : List Char) : List Char → List Char
  | [] => []
  | c :: rest =>
      if leadsWith sep (c :: rest) then [] else c :: splitHeadChars sep rest

/-- Python `s.split(sep)[0]` for a non-empty separator: the prefix of `s`
before the first occurrence of `sep`. -/
def pySplitHead (s sep : String) : String :=
  ⟨splitHeadChars sep.data s.data⟩

/-- The line map built by the external `json_source_map.calculate` call on the
canonical serialization: path → zero-indexed line of the value start. -/
def LineMap : Type := String → Option Nat

/-- `GeoJsonLint._get_line_number`: one-indexed line for a path, `None` when
the path is absent from the line map. -/
def getLineNumber (lm : LineMap) (path : String) : Option Nat :=
  (lm path).map (· + 1)

/-- One value of the `self.errors` dict: parallel lists of lines and feature
indices, appended in discovery order. -/
structure ErrorRecord where
  lines : List (Option Nat)
  features : List (Option Nat)

/-- The mutable state of a `GeoJsonLint` instance: the `check_crs`
configuration flag, the current feature index `self.feature_idx`, and the
insertion-ordered error dict `self.errors` (message → record). -/
structure LintState where
  check_crs : Bool
  feature_idx : Option Nat
  errors : List (String × ErrorRecord)

/-- `GeoJsonLint.__init__(check_crs)`. -/
def initState (c : Bool) : LintState :=
  { check_crs := c, feature_idx := none, errors := [] }

/-- `message in self.errors`. -/
def hasMsg (errors : List (String × ErrorRecord)) (msg : String) : Bool :=
  errors.any (fun kv => kv.1 == msg)

/-- `GeoJsonLint._add_error(message, line)`: a new message is appended at the
end of the dict; an existing message has the line and the current feature
index appended to its record. -/
def addError (msg : String) (line : Option Nat) (s : LintState) : LintState :=
  if hasMsg s.errors msg then
    { s with errors :=
        s.errors.map (fun kv =>
          if kv.1 == msg then
            (kv.1, ⟨kv.2.lines ++ [line], kv.2.features ++ [s.feature_idx]⟩)
          else kv) }
  else
    { s with errors := s.errors ++ [(msg, ⟨[line], [s.feature_idx]⟩)] }

/-- `GeoJsonLint.GEOMETRY_TYPES`, exactly as in the source (note that the
source list starts with "FeatureCollection" and "Feature"). -/
def GEOMETRY_TYPES : List String :=
  ["FeatureCollection", "Feature", "Point", "LineString", "Polygon",
   "MultiPoint", "MultiLineString", "MultiPolygon", "GeometryCollection"]

/-- `GeoJsonLint.GEOJSON_TYPES`. -/
def GEOJSON_TYPES : List String :=
  ["FeatureCollection", "Feature"] ++ GEOMETRY_TYPES

/-- Message text of the missing-type error. -/
def msgMissingType : String := "Missing \x27type\x27 member"

/-- Message text of the invalid-type error, with the f-string renderings of
the offending value and of the allowed list. -/
def msgInvalidType (tv : Json) (allowed : List String) : String :=
  "Invalid \x27type\x27 member, is \x27" ++ pyStr tv ++
    "\x27, must be one of " ++ reprStrList allowed

/-- Message text of the required-member error. -/
def msgMemberRequired (name : String) : String :=
  "\x22" ++ name ++ "\x22 member required"

/-- Message text of the member-must-be-array error. -/
def msgMustBeArray (name : String) (v : Json) : String :=
  "\x22" ++ name ++ "\x22 member must be an array, but is a " ++
    pyTypeName v ++ " instead"

/-- Message text of the member-must-be-object error. -/
def msgMustBeObject (name : String) (v : Json) : String :=
  "\x22" ++ name ++ "\x22 member must be an object/dictionary, but is a " ++
    pyTypeName v ++ " instead"

/-- Message text of the bad-feature-id error. -/
def msgFeatureId : String :=
  "Feature \x22id\x22 member must be a string or int number"

/-- Message text of the non-object-feature error. -/
def msgEveryFeature : String := "Every feature must be a dictionary/object."

/-- Message text of the CRS deprecation error. -/
def msgCrs : String :=
  "The newest GeoJSON specification defines GeoJSON as always latitude/longitude, remove CRS (coordinate reference system) member"

/-- Message text of the non-object-root error. -/
def msgRoot : String := "Root of GeoJSON must be an object/dictionary"

/-- Message text of the coordinate-position-not-array error. -/
def msgPositionArray : String := "Coordinate position must be an array"

/-- Message text of the position-length error. -/
def msgPositionLen : String := "Coordinate position must have exactly 2 or 3 values"

/-- Message text of the position-element-not-number error. -/
def msgPositionNum : String := "Each element in a coordinate position must be a number"

/-- Message text of the coordinates-not-array error raised by the
depth-parameterized recursion. -/
def msgCoordsArray : String := "Coordinates must be an array"

/-- `GeoJsonLint._is_invalid_type_member(obj, allowed_types, path)`: returns
the gate verdict together with the updated state.  A non-dict is an automatic
gate failure with no message; `if not obj_type` in the source treats both an
absent `type` member and a present-but-falsy value (e.g. the empty string) as
missing. -/
def is_invalid_type_member (lm : LineMap) (o : Json) (allowed : List String)
    (path : String) (s : LintState) : Bool × LintState :=
  match o with
  | Json.obj kvs =>
    match getM kvs "type" with
    | none =>
        (true, addError msgMissingType
          (getLineNumber lm (pySplitHead path "/type")) s)
    | some tv =>
        if isTruthy tv = false then
          (true, addError msgMissingType
            (getLineNumber lm (pySplitHead path "/type")) s)
        else if pyInList tv allowed = false then
          (true, addError (msgInvalidType tv allowed)
            (getLineNumber lm path) s)
        else (false, s)
  | _ => (true, s)

/-- `GeoJsonLint._is_invalid_property(obj, name, type_str, path)`.  The
non-dict fallback mirrors the fact that the source never reaches this function
with a non-dict (`name in obj` would raise); every call site guards it. -/
def is_invalid_property (lm : LineMap) (o : Json) (name : String)
    (type_str : String) (path : String) (s : LintState) : Bool × LintState :=
  match o with
  | Json.obj kvs =>
    match getM kvs name with
    | none =>
        (true, addError (msgMemberRequired name)
          (getLineNumber lm (pySplitHead path ("/" ++ name))) s)
    | some v =>
        if type_str == "array" && !(isArr v) then
          (true, addError (msgMustBeArray name v) (getLineNumber lm path) s)
        else if type_str == "object" && !(isObj v) then
          if (name == "geometry" || name == "properties") && isNull v then
            (false, s)
          else
            (true, addError (msgMustBeObject name v) (getLineNumber lm path) s)
        else (false, s)
  | _ => (true, s)

/-- `GeoJsonLint._validate_position(coords, path)`: the two leaf checks
(length 2 or 3; every element numeric) evaluate independently. -/
def validate_position (lm : LineMap) (coords : Json) (path : String)
    (s : LintState) : LintState :=
  match coords with
  | Json.arr xs =>
    let s1 :=
      if xs.length < 2 || xs.length > 3 then
        addError msgPositionLen (getLineNumber lm path) s
      else s
    if xs.all isPyNumber then s1
    else addError msgPositionNum (getLineNumber lm path) s1
  | _ => addError msgPositionArray (getLineNumber lm path) s

/-- `GeoJsonLint._validate_position_array(coords, depth, path)`: at depth 0
delegate to the leaf check; otherwise require an array and recurse one depth
lower over its elements, all against the same path. -/
def validate_position_array (lm : LineMap) : Nat → Json → String → LintState → LintState
  | 0, coords, path, s => validate_position lm coords path s
  | d + 1, coords, path, s =>
    match coords with
    | Json.arr xs =>
        xs.foldl (fun t p => validate_position_array lm d p path t) s
    | _ => addError msgCoordsArray (getLineNumber lm path) s

/-- A value found by dict lookup is structurally smaller than the member
list. -/
theorem getM_sizeOf_lt {kvs : List (String × Json)} {key : String} {v : Json}
    (h : getM kvs key = some v) : sizeOf v < sizeOf kvs := by
  induction kvs with
  | nil => simp [getM] at h
  | cons kv rest ih =>
    obtain ⟨a, b⟩ := kv
    rw [getM] at h
    by_cases hk : a == key
    · rw [if_pos hk] at h
      cases h
      simp
      omega
    · rw [if_neg hk] at h
      have := ih h
      simp
      omega

/-- A value found by `dict.get` is structurally smaller than the dict. -/
theorem jget_sizeOf_lt {g : Json} {key : String} {v : Json}
    (h : jget g key = some v) : sizeOf v < sizeOf g := by
  cases g <;> simp [jget] at h
  case obj kvs =>
    have := getM_sizeOf_lt h
    simp
    omega

mutual
/-- `GeoJsonLint._validate_geometry(geometry, path)`: gate on
`GEOMETRY_TYPES` (halting the subtree on failure), then either recurse over a
GeometryCollection's `geometries` or dispatch `coordinates` to the
depth-parameterized position validator. -/
def validate_geometry (lm : LineMap) (g : Json) (path : String)
    (s : LintState) : LintState :=
  let gate := is_invalid_type_member lm g GEOMETRY_TYPES (path ++ "/type") s
  if gate.1 then gate.2
  else
    let t := jget g "type"
    if pyEqStrOpt t "GeometryCollection" then
      let prop := is_invalid_property lm g "geometries" "array" path gate.2
      if prop.1 then prop.2
      else
        match hgs : jget g "geometries" with
        | some (Json.arr xs) => validate_geometry_items lm xs path 0 prop.2
        | _ => prop.2
    else
      let prop := is_invalid_property lm g "coordinates" "array" path gate.2
      if prop.1 then prop.2
      else
        match jget g "coordinates" with
        | some cv =>
            if pyEqStrOpt t "Point" then
              validate_position lm cv (path ++ "/coordinates") prop.2
            else if pyEqStrOpt t "LineString" || pyEqStrOpt t "MultiPoint" then
              validate_position_array lm 1 cv (path ++ "/coordinates") prop.2
            else if pyEqStrOpt t "Polygon" || pyEqStrOpt t "MultiLineString" then
              validate_position_array lm 2 cv (path ++ "/coordinates") prop.2
            else if pyEqStrOpt t "MultiPolygon" then
              validate_position_array lm 3 cv (path ++ "/coordinates") prop.2
            else prop.2
        | none => prop.2
termination_by sizeOf g
decreasing_by
  have h1 := jget_sizeOf_lt hgs
  simp at h1
  omega

/-- The `for idx, geom in enumerate(geometry["geometries"])` loop. -/
def validate_geometry_items (lm : LineMap) (gs : List Json) (path : String)
    (idx : Nat) (s : LintState) : LintState :=
  match gs with
  | [] => s
  | g0 :: rest =>
      validate_geometry_items lm rest path (idx + 1)
        (validate_geometry lm g0 (path ++ "/geometries/" ++ toString idx) s)
termination_by sizeOf gs
decreasing_by
  all_goals simp
  all_goals omega
end

/-- `GeoJsonLint._validate_feature(feature, path)`.  Note that the source
ignores the result of the type gate and of the two member gates, and that the
recursion into the geometry is guarded by Python truthiness (`if geom:`), so
an empty-dict geometry is skipped. -/
def validate_feature (lm : LineMap) (feature : Json) (path : String)
    (s : LintState) : LintState :=
  let s1 := (is_invalid_type_member lm feature ["Feature"] (path ++ "/type") s).2
  let s2 :=
    match jget feature "id" with
    | some idv =>
        if !(isPyStrOrInt idv) then
          addError msgFeatureId (getLineNumber lm (path ++ "/id")) s1
        else s1
    | none => s1
  let s3 := (is_invalid_property lm feature "properties" "object"
    (path ++ "/properties") s2).2
  let s4 := (is_invalid_property lm feature "geometry" "object"
    (path ++ "/geometry") s3).2
  match jget feature "geometry" with
  | some geomv =>
      if isTruthy geomv then validate_geometry lm geomv (path ++ "/geometry") s4
      else s4
  | none => s4

/-- The `for idx, feature in enumerate(feature_collection["features"])` loop:
sets `self.feature_idx` to the index, then either records the
non-object-feature error or validates the feature. -/
def validate_features (lm : LineMap) (feats : List Json) (path : String)
    (idx : Nat) (s : LintState) : LintState :=
  match feats with
  | [] => s
  | f :: rest =>
    let s1 := { s with feature_idx := some idx }
    let s2 :=
      match f with
      | Json.obj kvs =>
          validate_feature lm (Json.obj kvs)
            (path ++ "/features/" ++ toString idx) s1
      | _ =>
          addError msgEveryFeature
            (getLineNumber lm (path ++ "/features/" ++ toString idx)) s1
    validate_features lm rest path (idx + 1) s2

/-- `GeoJsonLint._validate_feature_collection(feature_collection, path)`.  The
result of the type gate is ignored by the source; the CRS deprecation error is
recorded when `check_crs` is set and a `crs` member is present. -/
def validate_feature_collection (lm : LineMap) (fc : Json) (path : String)
    (s : LintState) : LintState :=
  let s1 := (is_invalid_type_member lm fc ["FeatureCollection"]
    (path ++ "/type") s).2
  let s2 :=
    if s1.check_crs && jhasKey fc "crs" then
      addError msgCrs (getLineNumber lm (path ++ "/crs")) s1
    else s1
  let prop := is_invalid_property lm fc "features" "array"
    (path ++ "/features") s2
  if prop.1 then prop.2
  else
    match jget fc "features" with
    | some (Json.arr feats) => validate_features lm feats path 0 prop.2
    | _ => prop.2

/-- `GeoJsonLint._validate_geojson_root(obj)`: gate on `GEOJSON_TYPES` with
the root path `""` (halting on failure), then dispatch on the declared
type. -/
def validate_geojson_root (lm : LineMap) (o : Json) (s : LintState) :
    LintState :=
  let gate := is_invalid_type_member lm o GEOJSON_TYPES "" s
  if gate.1 then gate.2
  else
    let t := jget o "type"
    if pyEqStrOpt t "FeatureCollection" then
      validate_feature_collection lm o "" gate.2
    else if pyEqStrOpt t "Feature" then
      validate_feature lm o "" gate.2
    else if pyInListOpt t GEOMETRY_TYPES then
      validate_geometry lm o "" gate.2
    else gate.2

/-- `GeoJsonLint.lint(geojson_data)`: a non-dict root records one synthetic
error at line 0; otherwise the line map is built (here: the `lm` parameter,
standing for `calculate(json.dumps(geojson_data, ...))`) and the root is
validated.  The source returns `self.errors`; the report of a call is the
`errors` field of the returned state.  Note that neither `self.errors` nor
`self.feature_idx` is reset at the start of a call. -/
def lint (lm : LineMap) (geojson_data : Json) (s : LintState) : LintState :=
  match geojson_data with
  | Json.obj kvs => validate_geojson_root lm (Json.obj kvs) s
  | _ => addError msgRoot (some 0) s

/-! ### Model of `geojsonfix/checks_problematic.py`

The two checks below operate on plain dict geometries (the other checks in
that module take `shapely` objects and are out of reach of this embedding).
Python expressions that can raise are modelled in `Except String`, the error
payload naming the exception class. -/

/-- `d[key]` on a value: `KeyError` when the key is absent, `TypeError` when
the value is not subscriptable by a string. -/
def pyGetKey (g : Json) (key : String) : Except String Json :=
  match g with
  | Json.obj kvs =>
    match getM kvs key with
    | some v => Except.ok v
    | none => Except.error "KeyError"
  | _ => Except.error "TypeError"

/-- `v[i]` on a value: `IndexError` past the end of a list, `TypeError` on a
non-list. -/
def pyGetIdx (v : Json) (i : Nat) : Except String Json :=
  match v with
  | Json.arr xs =>
    match xs[i]? with
    | some x => Except.ok x
    | none => Except.error "IndexError"
  | _ => Except.error "TypeError"

/-- `l[i]` on a Python list of strings. -/
def pyGetIdxStr (l : List String) (i : Nat) : Except String String :=
  match l[i]? with
  | some x => Except.ok x
  | none => Except.error "IndexError"

/-- `v[:2]` on a value (`TypeError` on a non-list; slicing never raises on
length). -/
def pySliceTwo (v : Json) : Except String (List Json) :=
  match v with
  | Json.arr xs => Except.ok (xs.take 2)
  | _ => Except.error "TypeError"

/-- Split a character list at every occurrence of `sep` (the accumulator
holds the current chunk reversed). -/
def splitCharAux (sep : Char) : List Char → List Char → List String
  | [], acc => [⟨acc.reverse⟩]
  | c :: rest, acc =>
      if c == sep then ⟨acc.reverse⟩ :: splitCharAux sep rest []
      else splitCharAux sep rest (c :: acc)

/-- Python `s.split(sep)` for a single-character separator. -/
def pySplitChar (s : String) (sep : Char) : List String :=
  splitCharAux sep s.data []

/-- The comprehension element `len(str(coord[0]).split(".")[1]) > 6`.  With
numbers modelled as integers, `str(coord[0])` never contains a dot, so the
`[1]` subscript raises `IndexError` exactly as Python does on an integer
coordinate. -/
def excessivePrecisionOne (coord : Json) : Except String Bool := do
  let x ← pyGetIdx coord 0
  let parts := pySplitChar (pyStr x) '.'
  let frac ← pyGetIdxStr parts 1
  pure (decide (frac.length > 6))

/-- The eager list comprehension inside `any([...])`: every element is
evaluated before `any` runs, so an exception in any element propagates. -/
def excessivePrecisionAll : List Json → Except String (List Bool)
  | [] => Except.ok []
  | c :: rest => do
    let b ← excessivePrecisionOne c
    let bs ← excessivePrecisionAll rest
    pure (b :: bs)

/-- `geojsonfix.checks_problematic.check_excessive_coordinate_precision`:
checks the x coordinate of the first two coordinate pairs of
`geometry["coordinates"][0]`. -/
def check_excessive_coordinate_precision (geometry : Json) :
    Except String Bool := do
  let ring ← pyGetKey geometry "coordinates"
  let coords ← pyGetIdx ring 0
  let pairs ← pySliceTwo coords
  let bs ← excessivePrecisionAll pairs
  pure (bs.any id)

/-- `geojsonfix.checks_problematic.check_crosses_antimeridian`: the body is
`pass`, so the function returns `None` for every input (despite its `-> bool`
annotation).  The `shapely` geometry argument is opaque to the body, so it is
modelled as an arbitrary value. -/
def check_crosses_antimeridian (geom : Json) : Option Bool := none

/-- An empty line map (the abstract position lookup finding no path), used to
instantiate concrete runs. -/
def lmEmpty : LineMap := fun _ => none

/-! ### Report-key lemmas

`addError` never removes a message key: updating an existing record keeps
every key, inserting appends the new key at the end.  These lemmas propagate
key membership through the position-validator recursion. -/

/-- Updating the record of one message leaves the key list unchanged. -/
theorem map_fst_update (l : List (String × ErrorRecord)) (msg : String)
    (line fi : Option Nat) :
    (l.map (fun kv =>
      if kv.1 == msg then
        (kv.1, ⟨kv.2.lines ++ [line], kv.2.features ++ [fi]⟩)
      else kv)).map Prod.fst = l.map Prod.fst := by
  induction l with
  | nil => rfl
  | cons kv rest ih =>
    simp only [List.map_cons, ih]
    by_cases h : kv.1 == msg
    · rw [if_pos h]
    · rw [if_neg h]

/-- The key list after `addError`: unchanged for a known message, extended by
the new message otherwise. -/
theorem map_fst_addError (msg : String) (line : Option Nat) (s : LintState) :
    (addError msg line s).errors.map Prod.fst
      = if hasMsg s.errors msg then s.errors.map Prod.fst
        else s.errors.map Prod.fst ++ [msg] := by
  unfold addError
  by_cases hc : hasMsg s.errors msg
  · rw [if_pos hc, if_pos hc]
    exact map_fst_update s.errors msg line s.feature_idx
  · rw [if_neg hc, if_neg hc]
    simp

/-- A message already present in the report stays present after `addError`. -/
theorem mem_map_fst_addError {m : String} (msg : String) (line : Option Nat)
    (s : LintState) (h : m ∈ s.errors.map Prod.fst) :
    m ∈ (addError msg line s).errors.map Prod.fst := by
  rw [map_fst_addError]
  by_cases hc : hasMsg s.errors msg
  · rw [if_pos hc]
    exact h
  · rw [if_neg hc]
    exact List.mem_append_left _ h

/-- A present key is witnessed by `hasMsg`. -/
theorem mem_map_fst_of_hasMsg {l : List (String × ErrorRecord)} {msg : String}
    (h : hasMsg l msg = true) : msg ∈ l.map Prod.fst := by
  unfold hasMsg at h
  rw [List.any_eq_true] at h
  obtain ⟨kv, hkv, he⟩ := h
  rw [beq_iff_eq] at he
  exact he ▸ List.mem_map_of_mem Prod.fst hkv

/-- The message passed to `addError` is present afterwards. -/
theorem self_mem_map_fst_addError (msg : String) (line : Option Nat)
    (s : LintState) : msg ∈ (addError msg line s).errors.map Prod.fst := by
  rw [map_fst_addError]
  by_cases hc : hasMsg s.errors msg
  · rw [if_pos hc]
    exact mem_map_fst_of_hasMsg hc
  · rw [if_neg hc]
    exact List.mem_append_right _ (by simp)

/-- The leaf position check never removes a message key. -/
theorem mem_map_fst_validate_position {m : String} (lm : LineMap)
    (coords : Json) (path : String) (s : LintState)
    (h : m ∈ s.errors.map Prod.fst) :
    m ∈ (validate_position lm coords path s).errors.map Prod.fst := by
  cases coords <;> try exact mem_map_fst_addError _ _ _ h
  case arr xs =>
    unfold validate_position
    dsimp only
    split
    · split
      · exact mem_map_fst_addError _ _ _ h
      · exact h
    · refine mem_map_fst_addError _ _ _ ?_
      split
      · exact mem_map_fst_addError _ _ _ h
      · exact h

/-- The depth-parameterized position recursion never removes a message key. -/
theorem mem_map_fst_vpa {m : String} (d : Nat) :
    ∀ (coords : Json) (lm : LineMap) (path : String) (s : LintState),
      m ∈ s.errors.map Prod.fst →
      m ∈ (validate_position_array lm d coords path s).errors.map Prod.fst := by
  induction d with
  | zero =>
    intro coords lm path s h
    exact mem_map_fst_validate_position lm coords path s h
  | succ d ih =>
    intro coords lm path s h
    cases coords <;> try exact mem_map_fst_addError _ _ _ h
    case arr xs =>
      have aux : ∀ (ys : List Json) (t : LintState), m ∈ t.errors.map Prod.fst →
          m ∈ ((ys.foldl (fun acc p => validate_position_array lm d p path acc)
            t)).errors.map Prod.fst := by
        intro ys
        induction ys with
        | nil => intro t ht; exact ht
        | cons x rest ihx =>
          intro t ht
          rw [List.foldl_cons]
          exact ihx _ (ih x lm path t ht)
      exact aux xs s h

/-- Folding the position recursion over a list of siblings never removes a
message key. -/
theorem mem_map_fst_vpa_foldl {m : String} (d : Nat) (xs : List Json)
    (lm : LineMap) (path : String) :
    ∀ (s : LintState), m ∈ s.errors.map Prod.fst →
      m ∈ (xs.foldl (fun t p => validate_position_array lm d p path t)
            s).errors.map Prod.fst := by
  induction xs with
  | nil => intro s h; exact h
  | cons x rest ih =>
    intro s h
    rw [List.foldl_cons]
    exact ih _ (mem_map_fst_vpa d x lm path s h)

/-- At positive depth, a non-array records the coordinates error. -/
theorem vpa_succ_not_arr (lm : LineMap) (d : Nat) (path : String)
    (s : LintState) {q : Json} (hq : isArr q = false) :
    validate_position_array lm (d + 1) q path s
      = addError msgCoordsArray (getLineNumber lm path) s := by
  cases q <;> first | rfl | simp [isArr] at hq

/-! ### Concrete documents used by the claims -/

/-- The document `{"type": "Point", "coordinates": [1]}`. -/
def pointShortDoc : Json :=
  Json.obj [("type", Json.str "Point"), ("coordinates", Json.arr [Json.num 1])]

/-- The document `{"type": "Point", "coordinates": ["a"]}`. -/
def pointStrDoc : Json :=
  Json.obj [("type", Json.str "Point"), ("coordinates", Json.arr [Json.str "a"])]

/-- The document `{"type": "Point", "coordinates": [true, false]}`. -/
def pointBoolDoc : Json :=
  Json.obj [("type", Json.str "Point"),
    ("coordinates", Json.arr [Json.bool true, Json.bool false])]

/-- A FeatureCollection whose features array is
`[{type: Feature, properties: null, geometry: null}, 42]`. -/
def fcNullMembersDoc : Json :=
  Json.obj [("type", Json.str "FeatureCollection"),
    ("features", Json.arr
      [Json.obj [("type", Json.str "Feature"), ("properties", Json.null),
                 ("geometry", Json.null)],
       Json.num 42])]

/-- A FeatureCollection with one non-dict feature, `features: [7]`. -/
def fcOneBadFeatureDoc : Json :=
  Json.obj [("type", Json.str "FeatureCollection"),
    ("features", Json.arr [Json.num 7])]

/-- C4: the two leaf position checks evaluate independently and
unconditionally — linting `{type: Point, coordinates: [1]}` produces exactly
the length-error message, while linting `{type: Point, coordinates: ["a"]}`
produces both the length-error message and the not-a-number message, for any
line map. -/
theorem c4_position_checks_independent (lm : LineMap) :
    (lint lm pointShortDoc (initState false)).errors.map Prod.fst
      = [msgPositionLen]
    ∧ (lint lm pointStrDoc (initState false)).errors.map Prod.fst
      = [msgPositionLen, msgPositionNum] := by
  constructor
  · simp +decide [lint, validate_geojson_root, validate_geometry,
      is_invalid_type_member, is_invalid_property, validate_position, addError,
      getM, jget, GEOJSON_TYPES, GEOMETRY_TYPES, pyEqStrOpt, pyEqStr, pyInList,
      pyInListOpt, isTruthy, isArr, isPyNumber, hasMsg, initState,
      pointShortDoc, msgPositionLen]
  · simp +decide [lint, validate_geojson_root, validate_geometry,
      is_invalid_type_member, is_invalid_property, validate_position, addError,
      getM, jget, GEOJSON_TYPES, GEOMETRY_TYPES, pyEqStrOpt, pyEqStr, pyInList,
      pyInListOpt, isTruthy, isArr, isPyNumber, hasMsg, initState,
      pointStrDoc, msgPositionLen, msgPositionNum]

/-- C5: linting a FeatureCollection whose features are
`[{type: Feature, properties: null, geometry: null}, 42]` yields exactly one
error entry — the non-object-feature message, recorded for feature index 1 at
the path of that feature — and no error at all for the feature at index 0:
explicit nulls for `properties` and `geometry` are accepted. -/
theorem c5_null_members_accepted (lm : LineMap) :
    (lint lm fcNullMembersDoc (initState false)).errors
      = [(msgEveryFeature,
          ⟨[getLineNumber lm "/features/1"], [some 1]⟩)] := by
  rfl

/-- C10: JSON booleans satisfy the leaf numeric check (Python `bool` is a
subclass of `int`, so `isinstance(coord, (int, float))` holds): linting
`{type: Point, coordinates: [true, false]}` from a fresh validator returns an
empty report. -/
theorem c10_boolean_coordinates_accepted (lm : LineMap) :
    isPyNumber (Json.bool true) = true
    ∧ isPyNumber (Json.bool false) = true
    ∧ (lint lm pointBoolDoc (initState false)).errors = [] := by
  refine ⟨rfl, rfl, ?_⟩
  simp +decide [lint, validate_geojson_root, validate_geometry,
    is_invalid_type_member, is_invalid_property, validate_position, addError,
    getM, jget, GEOJSON_TYPES, GEOMETRY_TYPES, pyEqStrOpt, pyEqStr, pyInList,
    pyInListOpt, isTruthy, isArr, isPyNumber, hasMsg, initState, pointBoolDoc]

/-- C2: the claim requires each `lint` call on one configured instance to get
a fresh error report and a cleared feature index, but the source resets
neither `self.errors` nor `self.feature_idx`: a second `lint` call on the same
instance returns a report carrying the first call's occurrence as well, and a
call that iterated a features array leaves the feature index set when it
returns (so the next call does not begin with it absent). -/
theorem c2_state_carries_across_calls :
    (lint lmEmpty (Json.num 42) (initState false)).errors
      = [(msgRoot, ⟨[some 0], [none]⟩)]
    ∧ (lint lmEmpty (Json.num 42)
        (lint lmEmpty (Json.num 42) (initState false))).errors
      = [(msgRoot, ⟨[some 0, some 0], [none, none]⟩)]
    ∧ (lint lmEmpty fcOneBadFeatureDoc (initState false)).feature_idx
      = some 0 := by
  exact ⟨rfl, rfl, rfl⟩

/-- A Feature whose geometry member is `{"type": "Feature"}`. -/
def featureTypedGeomDoc : Json :=
  Json.obj [("type", Json.str "Feature"), ("properties", Json.null),
    ("geometry", Json.obj [("type", Json.str "Feature")])]

/-- A Feature whose geometry member is the empty object `{}`. -/
def featureEmptyGeomDoc : Json :=
  Json.obj [("type", Json.str "Feature"), ("properties", Json.null),
    ("geometry", Json.obj [])]

/-- A structurally valid Polygon geometry with integer coordinates,
`{"type": "Polygon", "coordinates": [[[0, 0], [1, 1], [1, 0], [0, 0]]]}`. -/
def polygonIntDoc : Json :=
  Json.obj [("type", Json.str "Polygon"),
    ("coordinates", Json.arr [Json.arr
      [Json.arr [Json.num 0, Json.num 0], Json.arr [Json.num 1, Json.num 1],
       Json.arr [Json.num 1, Json.num 0], Json.arr [Json.num 0, Json.num 0]]])]

/-- C3: the claim (and the spec's type taxonomy) puts exactly the seven
geometry types in the geometry gate's allowed set, but the source list
`GEOMETRY_TYPES` also contains "FeatureCollection" and "Feature" (as the
construction `GEOJSON_TYPES = ["FeatureCollection", "Feature"] +
GEOMETRY_TYPES` betrays, the two were meant to be excluded).  Hence a
geometry node whose type is "Feature" passes the gate without any
invalid-type error, and the walk descends into it: linting a Feature whose
geometry is `{"type": "Feature"}` records only the coordinates-required
error. -/
theorem c3_feature_passes_geometry_gate :
    "Feature" ∈ GEOMETRY_TYPES
    ∧ "FeatureCollection" ∈ GEOMETRY_TYPES
    ∧ GEOMETRY_TYPES.length = 9
    ∧ (lint lmEmpty featureTypedGeomDoc (initState false)).errors.map Prod.fst
      = [msgMemberRequired "coordinates"] := by
  refine ⟨by decide, by decide, by decide, ?_⟩
  simp +decide [lint, validate_geojson_root, validate_feature,
    validate_geometry, is_invalid_type_member, is_invalid_property,
    validate_position, addError, getM, jget, GEOJSON_TYPES, GEOMETRY_TYPES,
    pyEqStrOpt, pyEqStr, pyInList, pyInListOpt, isTruthy, isArr, isObj, isNull,
    isPyNumber, isPyStrOrInt, hasMsg, initState, featureTypedGeomDoc,
    msgMemberRequired]

/-- C8: the claim (and the spec) requires every present, non-null geometry
member that passes the object-or-null gate to be handed to the geometry
validator — including the empty object `{}`, whose missing type must then be
reported.  The source instead guards the recursion with Python truthiness
(`if geom:`), and an empty dict is falsy, so linting a Feature with
`geometry: {}` returns an empty report for every line map: no missing-type
error is recorded. -/
theorem c8_empty_geometry_silently_skipped (lm : LineMap) :
    isTruthy (Json.obj []) = false
    ∧ (lint lm featureEmptyGeomDoc (initState false)).errors = [] := by
  exact ⟨rfl, rfl⟩

/-- C9: the claim asserts that every downstream geometry-validity check
returns a boolean verdict and never raises on a geometry whose structural
validity the core has confirmed.  The source violates this twice: on the
structurally valid integer-coordinate Polygon (which the core passes with an
empty report), `check_excessive_coordinate_precision` evaluates
`str(coord[0]).split(".")[1]` and raises `IndexError` because the string of
an integer has no fractional part; and `check_crosses_antimeridian` has body
`pass` and returns `None` for every input, not a boolean. -/
theorem c9_downstream_checks_break_contract :
    (∀ lm : LineMap,
      (lint lm polygonIntDoc (initState false)).errors = [])
    ∧ check_excessive_coordinate_precision polygonIntDoc
      = Except.error "IndexError"
    ∧ (∀ g : Json, check_crosses_antimeridian g = none) := by
  refine ⟨?_, rfl, fun g => rfl⟩
  intro lm
  simp +decide [lint, validate_geojson_root, validate_geometry,
    is_invalid_type_member, is_invalid_property, validate_position,
    validate_position_array, addError, getM, jget, GEOJSON_TYPES,
    GEOMETRY_TYPES, pyEqStrOpt, pyEqStr, pyInList, pyInListOpt, isTruthy,
    isArr, isPyNumber, hasMsg, initState, polygonIntDoc]

/-- A FeatureCollection whose single feature is the empty object (missing
`type`). -/
def fcEmptyFeatureDoc : Json :=
  Json.obj [("type", Json.str "FeatureCollection"),
    ("features", Json.arr [Json.obj []])]

/-- C1 counterexample: linting a FeatureCollection whose feature at index 0
is `{}` shows the claim false — the feature's type gate fails (missing
`type`), yet the walk still inspects that node's members and records errors
originating below it (`"properties" member required` and `"geometry" member
required`), because `_validate_feature` ignores the gate's result. -/
theorem c1_counterexample :
    (lint lmEmpty fcEmptyFeatureDoc (initState false)).errors.map Prod.fst
      = [msgMissingType, msgMemberRequired "properties",
         msgMemberRequired "geometry"] := by
  rfl

/-- C1 (amended): a type-gate failure halts the subtree only in the root
validator and in the geometry validator, whose callers check the gate's
verdict and return at once, leaving the state exactly as the gate left it; in
the feature validator the gate error is recorded but the node's members are
still inspected (witnessed by the empty feature, which additionally collects
the two required-member errors). -/
theorem c1_gate_halts_only_root_and_geometry (lm : LineMap) (g : Json)
    (path : String) (s : LintState) (b : Bool)
    (hgeom : (is_invalid_type_member lm g GEOMETRY_TYPES (path ++ "/type") s).1
      = true)
    (hroot : (is_invalid_type_member lm g GEOJSON_TYPES "" s).1 = true) :
    validate_geometry lm g path s
      = (is_invalid_type_member lm g GEOMETRY_TYPES (path ++ "/type") s).2
    ∧ validate_geojson_root lm g s
      = (is_invalid_type_member lm g GEOJSON_TYPES "" s).2
    ∧ (validate_feature lm (Json.obj []) path (initState b)).errors.map Prod.fst
      = [msgMissingType, msgMemberRequired "properties",
         msgMemberRequired "geometry"] := by
  refine ⟨?_, ?_, ?_⟩
  · rw [validate_geometry]
    simp only [hgeom, if_true]
  · unfold validate_geojson_root
    simp only [hroot, if_true]
  · simp +decide [validate_feature, is_invalid_type_member,
      is_invalid_property, addError, getM, jget, hasMsg, initState, isTruthy]

/-- C1 witness: the amended halting statement applied at the empty object,
whose gate fails against both allowed sets. -/
theorem c1_gate_halts_only_root_and_geometry_witness :
    validate_geometry lmEmpty (Json.obj []) "" (initState false)
      = (is_invalid_type_member lmEmpty (Json.obj []) GEOMETRY_TYPES
          ("" ++ "/type") (initState false)).2
    ∧ validate_geojson_root lmEmpty (Json.obj []) (initState false)
      = (is_invalid_type_member lmEmpty (Json.obj []) GEOJSON_TYPES ""
          (initState false)).2
    ∧ (validate_feature lmEmpty (Json.obj []) ""
        (initState false)).errors.map Prod.fst
      = [msgMissingType, msgMemberRequired "properties",
         msgMemberRequired "geometry"] :=
  c1_gate_halts_only_root_and_geometry lmEmpty (Json.obj []) "" (initState false)
    false rfl rfl

/-- C7 counterexample: the claim says a present `type` whose value is outside
the allowed set — explicitly including the empty string — records the
invalid-type error, but the source's presence test is Python truthiness
(`if not obj_type:`), so an object with `"type": ""` records the
missing-type message instead (and no invalid-type message, the report holding
exactly the one key). -/
theorem c7_counterexample :
    ((is_invalid_type_member lmEmpty (Json.obj [("type", Json.str "")])
        GEOJSON_TYPES "/type" (initState false)).2).errors.map Prod.fst
      = [msgMissingType] := by
  rfl

/-- C7 (amended): for every object checked by the type-membership gate, if
the `type` member is absent or its value is falsy (null, false, 0, the empty
string, an empty array or object), the gate records the missing-type message
at the parent path (the gate's path argument with everything from the first
occurrence of "/type" stripped); if the `type` value is truthy but not in the
allowed set, the gate records the invalid-type message, naming the value and
the allowed list, at the gate's own path argument (which every caller except
the root validator sets to the type member's path; the root validator passes
the root path `""`). -/
theorem c7_gate_error_paths (lm : LineMap) (kvs : List (String × Json))
    (allowed : List String) (path : String) (s : LintState) :
    (pyTruthyOpt (getM kvs "type") = false →
      is_invalid_type_member lm (Json.obj kvs) allowed path s
        = (true, addError msgMissingType
            (getLineNumber lm (pySplitHead path "/type")) s))
    ∧ (∀ tv : Json, getM kvs "type" = some tv → isTruthy tv = true →
        pyInList tv allowed = false →
        is_invalid_type_member lm (Json.obj kvs) allowed path s
          = (true, addError (msgInvalidType tv allowed)
              (getLineNumber lm path) s)) := by
  constructor
  · intro h
    cases hm : getM kvs "type" with
    | none => simp [is_invalid_type_member, hm]
    | some tv =>
      rw [hm] at h
      simp only [pyTruthyOpt] at h
      simp [is_invalid_type_member, hm, h]
  · intro tv hm ht hin
    simp [is_invalid_type_member, hm, ht, hin]

/-- C7 witness: the amended statement applied to a feature-shaped path for an
empty-string type (missing-type branch, recorded at the parent path
`/features/0`) and to the root-dispatch configuration for a type value
outside the set (invalid-type branch, recorded at the gate's path). -/
theorem c7_gate_error_paths_witness :
    is_invalid_type_member lmEmpty (Json.obj [("type", Json.str "")])
        GEOJSON_TYPES "/features/0/type" (initState false)
      = (true, addError msgMissingType
          (getLineNumber lmEmpty (pySplitHead "/features/0/type" "/type"))
          (initState false))
    ∧ is_invalid_type_member lmEmpty (Json.obj [("type", Json.str "Bogus")])
        GEOJSON_TYPES "" (initState false)
      = (true, addError (msgInvalidType (Json.str "Bogus") GEOJSON_TYPES)
          (getLineNumber lmEmpty "") (initState false)) :=
  ⟨(c7_gate_error_paths lmEmpty [("type", Json.str "")] GEOJSON_TYPES
      "/features/0/type" (initState false)).1 rfl,
   (c7_gate_error_paths lmEmpty [("type", Json.str "Bogus")] GEOJSON_TYPES
      "" (initState false)).2 (Json.str "Bogus") rfl rfl rfl⟩

/-- C6: linting a MultiPolygon geometry whose `coordinates` member nests only
two array levels before hitting a leaf (here: an outer array whose first
element is an array beginning with the non-array leaf `q`, so the required
ring level of the depth-3 recursion is missing) records the error
"Coordinates must be an array" — the depth-parameterized recursion expected
an array at remaining depth 1 and found the leaf. -/
theorem c6_multipolygon_depth_two_coords_error (lm : LineMap) (q : Json)
    (qs rs : List Json) (hq : isArr q = false) :
    msgCoordsArray ∈
      (lint lm (Json.obj [("type", Json.str "MultiPolygon"),
          ("coordinates", Json.arr (Json.arr (q :: qs) :: rs))])
        (initState false)).errors.map Prod.fst := by
  show msgCoordsArray ∈
    (validate_geometry lm (Json.obj [("type", Json.str "MultiPolygon"),
        ("coordinates", Json.arr (Json.arr (q :: qs) :: rs))]) ""
      (initState false)).errors.map Prod.fst
  rw [validate_geometry]
  show msgCoordsArray ∈
    ((Json.arr (q :: qs) :: rs).foldl
      (fun t p => validate_position_array lm 2 p "/coordinates" t)
      (initState false)).errors.map Prod.fst
  rw [List.foldl_cons]
  apply mem_map_fst_vpa_foldl
  show msgCoordsArray ∈
    ((q :: qs).foldl
      (fun t p => validate_position_array lm 1 p "/coordinates" t)
      (initState false)).errors.map Prod.fst
  rw [List.foldl_cons]
  apply mem_map_fst_vpa_foldl
  rw [vpa_succ_not_arr lm 0 "/coordinates" (initState false) hq]
  exact self_mem_map_fst_addError _ _ _

/-- C6 witness: the depth-two MultiPolygon statement applied at
`coordinates = [[1, 2]]` (leaf `1`, which is not an array). -/
theorem c6_multipolygon_depth_two_coords_error_witness :
    isArr (Json.num 1) = false
    ∧ msgCoordsArray ∈
        (lint lmEmpty (Json.obj [("type", Json.str "MultiPolygon"),
            ("coordinates", Json.arr (Json.arr (Json.num 1 :: [Json.num 2])
              :: []))])
          (initState false)).errors.map Prod.fst :=
  ⟨rfl, c6_multipolygon_depth_two_coords_error lmEmpty (Json.num 1)
    [Json.num 2] [] rfl⟩
